import Mathlib

set_option maxRecDepth 8000

/-!
# Verification of the Tswapapp staking / settlement core

Shallow embedding of the staking program's reward arithmetic and the
Stake / Unstake / Harvest / Initialize / UpdateParameters handlers, plus
theorems settling the specification claims against the code.

Sources embedded:
* `src/archive/old_fixes/lib_new_fix.rs` — the integer (u128) reward
  computation inlined in `process_harvest`, and the `process_stake`,
  `process_unstake`, `process_harvest`, `process_initialize` handlers.
* `src/archive/DECIMAL_FIX_V3_COMPLETE.rs` — `process_harvest` and
  `process_unstake` (the settlement logic around the float-based
  `calculate_rewards`, which is taken as an abstract function parameter).
* `src/program/src/lib.rs` — the multihub `process_initialize` with its
  already-initialized guard.

Machine integers are modelled as `Nat` (for `u64`/`u128` values) and `Int`
(for `i64` timestamps), with overflow made explicit exactly where the Rust
code uses `checked_*` / `saturating_*` operations or `as` casts.
An instruction handler is a function into `Except`; returning an error
models the host aborting the instruction with every account write rolled
back (Solana's atomic-instruction semantics), so an error result means no
persisted state change.
-/

namespace Tswap

/-- Number of values of a Rust `u64`. -/
def U64 : Nat := 2 ^ 64

/-- Number of values of a Rust `u128`. -/
def U128 : Nat := 2 ^ 128

/-- Rust `u128::checked_mul` on values already in range: `none` exactly when
the mathematical product does not fit in 128 bits. -/
def checkedMul128 (a b : Nat) : Option Nat :=
  if a * b < U128 then some (a * b) else none

/-- Rust `u64::checked_add`. -/
def checkedAdd64 (a b : Nat) : Option Nat :=
  if a + b < U64 then some (a + b) else none

/-- Rust `u64::checked_sub`. -/
def checkedSub64 (a b : Nat) : Option Nat :=
  if b ≤ a then some (a - b) else none

/-- Rust `u64::saturating_add`: clamps at `u64::MAX`. -/
def saturatingAdd64 (a b : Nat) : Nat :=
  min (a + b) (U64 - 1)

/-- Rust `i64::saturating_sub`: clamps the mathematical difference to the
`i64` range. -/
def i64SatSub (a b : Int) : Int :=
  max (-(2 ^ 63)) (min (a - b) (2 ^ 63 - 1))

/-- Rust `i64::checked_sub`: `none` exactly when the mathematical difference
falls outside the `i64` range (a negative in-range result is fine). -/
def i64CheckedSub (a b : Int) : Option Int :=
  if a - b < -(2 ^ 63) ∨ (2 ^ 63 : Int) ≤ a - b then none else some (a - b)

/-- Rust `x as u128` applied to an `i64` value: two's-complement
reinterpretation, i.e. the value modulo `2^128`. -/
def i64AsU128 (x : Int) : Nat := (x % (2 ^ 128 : Int)).toNat

/-- The reward computation inlined in `process_harvest` of
`src/archive/old_fixes/lib_new_fix.rs` (lines 290–293):

    let rewards = (staking_account.staked_amount as u128)
        .checked_mul(program_state.stake_rate_per_second as u128).unwrap_or(0)
        .checked_mul(time_staked as u128).unwrap_or(0)
        .checked_div(1_000_000).unwrap_or(0) as u64;

`checked_div` by the nonzero constant never fails; the final `as u64`
truncates the 128-bit quotient modulo `2^64`. -/
def calculate_rewards_u128 (staked_amount stake_rate_per_second : Nat)
    (time_staked : Int) : Nat :=
  let m1 := (checkedMul128 staked_amount stake_rate_per_second).getD 0
  let m2 := (checkedMul128 m1 (i64AsU128 time_staked)).getD 0
  (m2 / 1000000) % U64

/-- Rust `get_wallet_adjusted_yos_amount` from
`src/archive/old_fixes/lib_new_fix.rs` lines 62–65: divides the raw reward
by `10^9` ("display normalization"). -/
def get_wallet_adjusted_yos_amount (amount : Nat) : Nat :=
  amount / 10 ^ 9

/-- The `ProgramState` record of the staking program (`lib_new_fix.rs`
lines 40–49; the same layout is read by `DECIMAL_FIX_V3_COMPLETE.rs`).
Pubkeys are modelled as `Nat` identities. -/
structure ProgramState where
  admin : Nat
  yot_mint : Nat
  yos_mint : Nat
  stake_rate_per_second : Nat
  harvest_threshold : Nat
  stake_threshold : Nat
  unstake_threshold : Nat
deriving DecidableEq

/-- The `StakingAccount` record of `lib_new_fix.rs` lines 52–58 (no
`total_harvested` field in this version). -/
structure StakingAccountV1 where
  owner : Nat
  staked_amount : Nat
  last_harvest_time : Int
  last_stake_time : Int
deriving DecidableEq

/-- The staking-account record as used by `DECIMAL_FIX_V3_COMPLETE.rs` and
`INTEGRATED_LINEAR_FIX.rs`: those handlers read/write `owner`,
`staked_amount`, `last_harvest_time` and `total_harvested`. -/
structure StakingAccountV3 where
  owner : Nat
  staked_amount : Nat
  last_harvest_time : Int
  total_harvested : Nat
deriving DecidableEq

/-- The `solana_program::program_error::ProgramError` variants the staking
handlers actually return. -/
inductive ProgErr where
  | missingRequiredSignature
  | invalidAccountData
  | invalidArgument
  | insufficientFunds
deriving DecidableEq

/-- Seed token for the `b"authority"` derivation seed. -/
def authoritySeed : Nat := 0

/-- Seed token for the `b"program_state"` derivation seed. -/
def programStateSeed : Nat := 1

/-- Modelled from the spec: `Pubkey::find_program_address` is Solana SDK
code external to this repository. Per §4.3 it is a pure, repeatable
derivation of an `(address, bump)` pair from a domain-separation seed and
the program identity; it is modelled here as an injective pairing of the
two, with a fixed bump. -/
def find_program_address (seed programId : Nat) : Nat × Nat :=
  (Nat.pair seed programId, 255)

deriving instance DecidableEq for Except

/-- Result of a successful `process_stake` (`lib_new_fix.rs` lines
105–178): the persisted staking record and the stake-token amount
transferred from the caller into the program pool. -/
structure StakeResult where
  account : StakingAccountV1
  stakeTransfer : Nat
deriving DecidableEq

/-- `process_stake` of `lib_new_fix.rs` (lines 105–178). Checks: caller
signature, `amount ≥ stake_threshold`. Creates the account on first stake;
otherwise loads the existing record WITHOUT comparing its `owner` to the
caller. Adds with `saturating_add`, stamps `last_stake_time`, then
transfers `amount` of stake token from the caller to the pool. -/
def process_stake (userKey : Nat) (isSigner : Bool) (amount : Nat)
    (ps : ProgramState) (existing : Option StakingAccountV1) (now : Int) :
    Except ProgErr StakeResult :=
  if isSigner = false then .error .missingRequiredSignature
  else if amount < ps.stake_threshold then .error .invalidArgument
  else
    let acct := existing.getD
      { owner := userKey, staked_amount := 0,
        last_harvest_time := now, last_stake_time := now }
    let acct' := { acct with
      staked_amount := saturatingAdd64 acct.staked_amount amount,
      last_stake_time := now }
    .ok { account := acct', stakeTransfer := amount }

/-- Result of a successful `process_harvest` in `lib_new_fix.rs`: the
persisted record and the reward-token amount actually transferred. -/
structure HarvestResultV1 where
  account : StakingAccountV1
  rewardTransfer : Nat
deriving DecidableEq

/-- `process_harvest` of `lib_new_fix.rs` (lines 257–345). Checks only the
caller signature (no owner comparison), computes the u128 reward, requires
`rewards ≥ harvest_threshold`, updates `last_harvest_time`, re-derives the
authority address and compares it with the supplied one, then transfers
`get_wallet_adjusted_yos_amount rewards = rewards / 10^9` — NOT `rewards`.
An error result models the host rolling back every account write. -/
def process_harvest_v1 (programId userKey : Nat) (isSigner : Bool)
    (authorityKey : Nat) (acct : StakingAccountV1) (ps : ProgramState)
    (now : Int) : Except ProgErr HarvestResultV1 :=
  if isSigner = false then .error .missingRequiredSignature
  else
    let time_staked := i64SatSub now acct.last_harvest_time
    let rewards :=
      calculate_rewards_u128 acct.staked_amount ps.stake_rate_per_second time_staked
    if rewards < ps.harvest_threshold then .error .invalidArgument
    else
      let acct' := { acct with last_harvest_time := now }
      if (find_program_address authoritySeed programId).1 ≠ authorityKey then
        .error .invalidArgument
      else
        .ok { account := acct',
              rewardTransfer := get_wallet_adjusted_yos_amount rewards }

/-- `process_initialize` of `lib_new_fix.rs` (lines 68–103). The
`existing` argument is the current content of the program-state account;
the code never inspects it — after the signature check it unconditionally
overwrites the configuration with the caller's values. -/
def process_init_staking (adminKey : Nat) (isSigner : Bool)
    (existing : Option ProgramState)
    (yotMint yosMint rate hThr sThr uThr : Nat) :
    Except ProgErr ProgramState :=
  if isSigner = false then .error .missingRequiredSignature
  else
    .ok { admin := adminKey, yot_mint := yotMint, yos_mint := yosMint,
          stake_rate_per_second := rate, harvest_threshold := hThr,
          stake_threshold := sThr, unstake_threshold := uThr }

/-- Result of a successful `process_harvest` in
`DECIMAL_FIX_V3_COMPLETE.rs`: the persisted record and the reward-token
amount transferred to the owner. -/
structure HarvestResultV3 where
  account : StakingAccountV3
  rewardTransfer : Nat
deriving DecidableEq

/-- `process_harvest` of `DECIMAL_FIX_V3_COMPLETE.rs` (lines 31–134).
The float-based `calculate_rewards` is taken as the abstract function
parameter `calc` (principal, elapsed seconds, rate); everything else
follows the source: signature check, authority re-derivation and
comparison, owner check, `checked_sub` of the elapsed window, harvest
threshold, pool-balance check, `checked_add` into `total_harvested`,
then transfer of exactly `raw_rewards`. -/
def process_harvest_v3 (calcRewards : Nat → Int → Nat → Nat)
    (programId userKey : Nat) (isSigner : Bool) (authorityKey : Nat)
    (acct : StakingAccountV3) (ps : ProgramState) (now : Int)
    (programYosBalance : Nat) : Except ProgErr HarvestResultV3 :=
  if isSigner = false then .error .missingRequiredSignature
  else if (find_program_address authoritySeed programId).1 ≠ authorityKey then
    .error .invalidAccountData
  else if acct.owner ≠ userKey then .error .invalidAccountData
  else
    match i64CheckedSub now acct.last_harvest_time with
    | none => .error .invalidArgument
    | some elapsed =>
      let raw_rewards := calcRewards acct.staked_amount elapsed ps.stake_rate_per_second
      if raw_rewards < ps.harvest_threshold then .error .insufficientFunds
      else if programYosBalance < raw_rewards then .error .insufficientFunds
      else
        match checkedAdd64 acct.total_harvested raw_rewards with
        | none => .error .invalidArgument
        | some th =>
          .ok { account := { acct with last_harvest_time := now, total_harvested := th },
                rewardTransfer := raw_rewards }

/-- Result of a successful `process_unstake` in
`DECIMAL_FIX_V3_COMPLETE.rs`: the persisted record, the principal
(stake-token) amount transferred back to the owner, the reward-token
amount transferred (0 when skipped), and whether the reward leg was
skipped for lack of pool balance ("reward not paid"). -/
structure UnstakeResult where
  account : StakingAccountV3
  principalTransfer : Nat
  rewardTransfer : Nat
  rewardSkipped : Bool
deriving DecidableEq

/-- `process_unstake` of `DECIMAL_FIX_V3_COMPLETE.rs` (lines 137–288).
Signature, authority derivation, owner and sufficient-stake checks; the
elapsed window via `checked_sub`; rewards via the abstract `calc`;
`last_harvest_time` updated, stake reduced, `total_harvested` incremented
by the computed reward BEFORE any transfer; the principal transfer is
mandatory; the reward transfer is attempted only when `raw_rewards > 0`
and the pool balance covers it, otherwise it is skipped and the operation
still succeeds. -/
def process_unstake_v3 (calcRewards : Nat → Int → Nat → Nat)
    (programId userKey : Nat) (isSigner : Bool) (authorityKey : Nat)
    (acct : StakingAccountV3) (ps : ProgramState) (now : Int)
    (amount : Nat) (programYosBalance : Nat) : Except ProgErr UnstakeResult :=
  if isSigner = false then .error .missingRequiredSignature
  else if (find_program_address authoritySeed programId).1 ≠ authorityKey then
    .error .invalidAccountData
  else if acct.owner ≠ userKey then .error .invalidAccountData
  else if acct.staked_amount < amount then .error .insufficientFunds
  else
    match i64CheckedSub now acct.last_harvest_time with
    | none => .error .invalidArgument
    | some elapsed =>
      let raw_rewards := calcRewards acct.staked_amount elapsed ps.stake_rate_per_second
      match checkedSub64 acct.staked_amount amount with
      | none => .error .invalidArgument
      | some staked' =>
        match (if 0 < raw_rewards then checkedAdd64 acct.total_harvested raw_rewards
               else some acct.total_harvested) with
        | none => .error .invalidArgument
        | some th =>
          let acct' :=
            { acct with last_harvest_time := now, staked_amount := staked',
                        total_harvested := th }
          if 0 < raw_rewards then
            if raw_rewards ≤ programYosBalance then
              .ok { account := acct', principalTransfer := amount,
                    rewardTransfer := raw_rewards, rewardSkipped := false }
            else
              .ok { account := acct', principalTransfer := amount,
                    rewardTransfer := 0, rewardSkipped := true }
          else
            .ok { account := acct', principalTransfer := amount,
                  rewardTransfer := 0, rewardSkipped := false }

/-- The `ProgramState` of the multihub swap program
(`src/program/src/lib.rs` lines 91–115). -/
structure MultihubState where
  is_initialized : Bool
  admin : Nat
  yot_mint : Nat
  yos_mint : Nat
  sol_yot_pool : Nat
  authority : Nat
  authority_bump : Nat
  liquidity_contribution_percent : Nat
  admin_fee_percent : Nat
  yos_cashback_percent : Nat
  last_update_time : Nat
deriving DecidableEq

/-- The errors reachable from the multihub `process_initialize`
(`MissingRequiredSignature`, `MultiHubSwapError::InvalidAuthority`,
`MultiHubSwapError::AlreadyInitialized`). -/
inductive MhErr where
  | missingRequiredSignature
  | invalidAuthority
  | alreadyInitialized
deriving DecidableEq

/-- `process_initialize` of `src/program/src/lib.rs` (lines 190–290).
Signature check; the supplied state account must equal the derived
`b"program_state"` address; then, if the account has data that
deserializes with `is_initialized` set, fail `AlreadyInitialized`;
otherwise create and write the fresh state (constants 20 / 1 / 3 from
lines 24–26). `dataEmpty` models `data_is_empty()`, `parsed` the
`try_from_slice` result. -/
def process_init_multihub (programId adminKey : Nat) (isSigner : Bool)
    (stateKey : Nat) (dataEmpty : Bool) (parsed : Option MultihubState)
    (yotMint yosMint solYotPool authorityBump now : Nat) :
    Except MhErr MultihubState :=
  if isSigner = false then .error .missingRequiredSignature
  else if (find_program_address programStateSeed programId).1 ≠ stateKey then
    .error .invalidAuthority
  else
    let authorityAddr := (find_program_address authoritySeed programId).1
    if dataEmpty = false ∧ (parsed.elim false fun s => s.is_initialized) = true then
      .error .alreadyInitialized
    else
      .ok { is_initialized := true, admin := adminKey, yot_mint := yotMint,
            yos_mint := yosMint, sol_yot_pool := solYotPool,
            authority := authorityAddr, authority_bump := authorityBump,
            liquidity_contribution_percent := 20, admin_fee_percent := 1,
            yos_cashback_percent := 3, last_update_time := now }

/-- `i64AsU128` is the identity on in-range nonnegative values. -/
theorem i64AsU128_ofNat (t : Nat) (h : t < 2 ^ 128) :
    i64AsU128 (t : Int) = t := by
  unfold i64AsU128
  rw [Int.emod_eq_of_lt (by exact_mod_cast Nat.zero_le t) (by exact_mod_cast h)]
  exact Int.toNat_natCast t

/-- In the non-overflow range, the u128 reward expression of `lib_new_fix.rs`
computes exactly `⌊p·r·t / 10^6⌋`. Shared helper for several claims. -/
theorem calc_u128_eq_div (p r t : Nat)
    (hp : p < U64) (hr : r < U64) (ht : t < U64)
    (hprod : p * r * t < U128) (hq : p * r * t / 1000000 < U64) :
    calculate_rewards_u128 p r (t : Int) = p * r * t / 1000000 := by
  have ht128 : t < 2 ^ 128 := lt_of_lt_of_le ht (by norm_num [U64])
  have hpr : p * r < U128 := by
    have h1 : p * r < U64 * U64 :=
      Nat.mul_lt_mul_of_lt_of_le hp (Nat.le_of_lt hr) (by norm_num [U64])
    calc p * r < U64 * U64 := h1
    _ = U128 := by norm_num [U64, U128]
  unfold calculate_rewards_u128
  rw [i64AsU128_ofNat t ht128]
  rw [checkedMul128, if_pos hpr]
  simp only [Option.getD_some]
  rw [checkedMul128, if_pos hprod]
  simp only [Option.getD_some]
  exact Nat.mod_eq_of_lt hq

/-- Claim C1 (amended): on the domain where neither the widened 128-bit
product nor the narrowing of the quotient to 64 bits overflows, the reward
expression of `lib_new_fix.rs` `process_harvest` equals
`⌊principal · rate · elapsed / 10^6⌋` (the scale is the fixed constant
`1_000_000`, not a parameter). Outside this domain the code substitutes `0`
or truncates, so the unrestricted claim fails (see the counterexample). -/
theorem reward_formula_matches_floor_div (p r t : Nat)
    (hp : p < U64) (hr : r < U64) (ht : t < U64)
    (hprod : p * r * t < U128) (hq : p * r * t / 1000000 < U64) :
    calculate_rewards_u128 p r (t : Int) = p * r * t / 1000000 :=
  calc_u128_eq_div p r t hp hr ht hprod hq

/-- Claim C1, witness: the formula evaluated at 1 token (10^9 raw units),
rate 12000, one year of seconds. -/
theorem reward_formula_matches_floor_div_witness :
    (1000000000 : Nat) < U64 ∧ (12000 : Nat) < U64 ∧ (31536000 : Nat) < U64 ∧
      1000000000 * 12000 * 31536000 < U128 ∧
      1000000000 * 12000 * 31536000 / 1000000 < U64 ∧
      calculate_rewards_u128 1000000000 12000 ((31536000 : Nat) : Int) =
        1000000000 * 12000 * 31536000 / 1000000 :=
  ⟨by decide, by decide, by decide, by decide, by decide,
    reward_formula_matches_floor_div 1000000000 12000 31536000
      (by decide) (by decide) (by decide) (by decide) (by decide)⟩

/-- Claim C1, counterexample: at `p = r = t = u64::MAX` the claimed equality
`reward = ⌊p·r·t/10^6⌋` fails on the code — the second `checked_mul`
overflows, `unwrap_or(0)` substitutes `0`, yet the mathematical value is
nonzero. -/
theorem reward_formula_overflow_cex :
    calculate_rewards_u128 (2 ^ 64 - 1) (2 ^ 64 - 1) ((2 ^ 64 - 1 : Nat) : Int) = 0 ∧
      (2 ^ 64 - 1) * (2 ^ 64 - 1) * (2 ^ 64 - 1) / 1000000 ≠ 0 := by
  exact ⟨by decide, by decide⟩

/-- Claim C2, counterexample: the claim demands an `ArithmeticOverflow`
failure on overflow, never a substituted or truncated value. The reward
expression's type has no error outcome at all: at
`p = r = u64::MAX, t = 2` the widened product overflows and `unwrap_or(0)`
makes the call return the substituted value `0`; at
`p = r = 2^40, t = 10^6` the quotient `2^80` is narrowed by `as u64` to
`0`. In both cases the mathematical value is nonzero, so no error was
raised and a wrong value was returned. -/
theorem reward_overflow_silently_substituted :
    calculate_rewards_u128 (2 ^ 64 - 1) (2 ^ 64 - 1) (2 : Int) = 0 ∧
      (2 ^ 64 - 1) * (2 ^ 64 - 1) * 2 / 1000000 ≠ 0 ∧
      calculate_rewards_u128 (2 ^ 40) (2 ^ 40) (1000000 : Int) = 0 ∧
      2 ^ 40 * 2 ^ 40 * 1000000 / 1000000 ≠ 0 := by
  exact ⟨by decide, by decide, by decide, by decide⟩

/-- Claim C2 (amended): on every u64 input on which the widened
multiplication overflows (`2^128 ≤ p·r·t`), the reward computation of
`lib_new_fix.rs` lines 290–293 silently substitutes `0`; on every input
on which the 128-bit quotient exceeds `u64::MAX`, the `as u64` narrowing
silently truncates it modulo `2^64` and the returned value differs from
the mathematical result. No `ArithmeticOverflow` failure exists on any
path — the expression's type has no error outcome. -/
theorem reward_overflow_behavior (p r t : Nat)
    (hp : p < U64) (hr : r < U64) (ht : t < U64) :
    (U128 ≤ p * r * t → calculate_rewards_u128 p r (t : Int) = 0) ∧
    (p * r * t < U128 → U64 ≤ p * r * t / 1000000 →
      calculate_rewards_u128 p r (t : Int) = p * r * t / 1000000 % U64 ∧
      calculate_rewards_u128 p r (t : Int) ≠ p * r * t / 1000000) := by
  have ht128 : t < 2 ^ 128 := lt_of_lt_of_le ht (by norm_num [U64])
  have hpr : p * r < U128 := by
    have h1 : p * r < U64 * U64 :=
      Nat.mul_lt_mul_of_lt_of_le hp (Nat.le_of_lt hr) (by norm_num [U64])
    calc p * r < U64 * U64 := h1
    _ = U128 := by norm_num [U64, U128]
  constructor
  · intro hof
    unfold calculate_rewards_u128
    rw [i64AsU128_ofNat t ht128]
    rw [checkedMul128, if_pos hpr]
    simp only [Option.getD_some]
    rw [checkedMul128, if_neg (not_lt.mpr hof)]
    simp only [Option.getD_none]
    norm_num
  · intro hlt hq
    have heq : calculate_rewards_u128 p r (t : Int) = p * r * t / 1000000 % U64 := by
      unfold calculate_rewards_u128
      rw [i64AsU128_ofNat t ht128]
      rw [checkedMul128, if_pos hpr]
      simp only [Option.getD_some]
      rw [checkedMul128, if_pos hlt]
      simp only [Option.getD_some]
    refine ⟨heq, ?_⟩
    rw [heq]
    have hmod : p * r * t / 1000000 % U64 < U64 :=
      Nat.mod_lt _ (by norm_num [U64])
    exact ne_of_lt (lt_of_lt_of_le hmod hq)

/-- Claim C2, witness: the substitution branch at `p = r = t = 2^62`
(product `2^186` overflows u128) and the truncation branch at
`p = r = 2^40, t = 10^6` (quotient `2^80` exceeds `u64::MAX`). -/
theorem reward_overflow_behavior_witness :
    ((2 ^ 62 : Nat) < U64 ∧ (2 ^ 62 : Nat) < U64 ∧ (2 ^ 62 : Nat) < U64 ∧
      U128 ≤ 2 ^ 62 * 2 ^ 62 * 2 ^ 62 ∧
      calculate_rewards_u128 (2 ^ 62) (2 ^ 62) ((2 ^ 62 : Nat) : Int) = 0) ∧
    ((2 ^ 40 : Nat) < U64 ∧ (2 ^ 40 : Nat) < U64 ∧ (1000000 : Nat) < U64 ∧
      2 ^ 40 * 2 ^ 40 * 1000000 < U128 ∧
      U64 ≤ 2 ^ 40 * 2 ^ 40 * 1000000 / 1000000 ∧
      calculate_rewards_u128 (2 ^ 40) (2 ^ 40) ((1000000 : Nat) : Int) =
        2 ^ 40 * 2 ^ 40 * 1000000 / 1000000 % U64 ∧
      calculate_rewards_u128 (2 ^ 40) (2 ^ 40) ((1000000 : Nat) : Int) ≠
        2 ^ 40 * 2 ^ 40 * 1000000 / 1000000) := by
  refine ⟨⟨by decide, by decide, by decide, by decide, ?_⟩,
          ⟨by decide, by decide, by decide, by decide, by decide, ?_, ?_⟩⟩
  · exact (reward_overflow_behavior (2 ^ 62) (2 ^ 62) (2 ^ 62)
      (by decide) (by decide) (by decide)).1 (by decide)
  · exact ((reward_overflow_behavior (2 ^ 40) (2 ^ 40) 1000000
      (by decide) (by decide) (by decide)).2 (by decide) (by decide)).1
  · exact ((reward_overflow_behavior (2 ^ 40) (2 ^ 40) 1000000
      (by decide) (by decide) (by decide)).2 (by decide) (by decide)).2

/-- Claim C6 (amended): doubling the principal or the elapsed time doubles
the reward only up to the floor-division truncation: the doubled-input
reward lies in `[2·reward, 2·reward + 1]`. Exact equality fails (see the
counterexample). Argument order of `calculate_rewards_u128` is
(principal, rate, elapsed). -/
theorem reward_doubling_within_one (p r t : Nat)
    (hp : 2 * p < U64) (hr : r < U64) (ht : 2 * t < U64)
    (hprod : 2 * (p * r * t) < U128) (hq : 2 * (p * r * t) / 1000000 < U64) :
    (2 * calculate_rewards_u128 p r (t : Int) ≤ calculate_rewards_u128 (2 * p) r (t : Int) ∧
      calculate_rewards_u128 (2 * p) r (t : Int) ≤ 2 * calculate_rewards_u128 p r (t : Int) + 1) ∧
    (2 * calculate_rewards_u128 p r (t : Int) ≤ calculate_rewards_u128 p r ((2 * t : Nat) : Int) ∧
      calculate_rewards_u128 p r ((2 * t : Nat) : Int) ≤
        2 * calculate_rewards_u128 p r (t : Int) + 1) := by
  have hp1 : p < U64 := lt_of_le_of_lt (Nat.le_mul_of_pos_left p (by norm_num)) hp
  have ht1 : t < U64 := lt_of_le_of_lt (Nat.le_mul_of_pos_left t (by norm_num)) ht
  have hle : p * r * t ≤ 2 * (p * r * t) := Nat.le_mul_of_pos_left _ (by norm_num)
  have hprod1 : p * r * t < U128 := lt_of_le_of_lt hle hprod
  have hq1 : p * r * t / 1000000 < U64 :=
    lt_of_le_of_lt (Nat.div_le_div_right hle) hq
  have e2 : 2 * p * r * t = 2 * (p * r * t) := by ring
  have e3 : p * r * (2 * t) = 2 * (p * r * t) := by ring
  have hprod2 : 2 * p * r * t < U128 := by rw [e2]; exact hprod
  have hq2 : 2 * p * r * t / 1000000 < U64 := by rw [e2]; exact hq
  have hprod3 : p * r * (2 * t) < U128 := by rw [e3]; exact hprod
  have hq3 : p * r * (2 * t) / 1000000 < U64 := by rw [e3]; exact hq
  rw [calc_u128_eq_div p r t hp1 hr ht1 hprod1 hq1,
    calc_u128_eq_div (2 * p) r t hp hr ht1 hprod2 hq2,
    calc_u128_eq_div p r (2 * t) hp1 hr ht hprod3 hq3, e2, e3]
  omega

/-- Claim C6, witness at `p = 3`, `r = 7`, `t = 100000`. -/
theorem reward_doubling_within_one_witness :
    2 * 3 < U64 ∧ (7 : Nat) < U64 ∧ 2 * 100000 < U64 ∧
      2 * (3 * 7 * 100000) < U128 ∧ 2 * (3 * 7 * 100000) / 1000000 < U64 ∧
      ((2 * calculate_rewards_u128 3 7 ((100000 : Nat) : Int) ≤
          calculate_rewards_u128 (2 * 3) 7 ((100000 : Nat) : Int) ∧
        calculate_rewards_u128 (2 * 3) 7 ((100000 : Nat) : Int) ≤
          2 * calculate_rewards_u128 3 7 ((100000 : Nat) : Int) + 1) ∧
      (2 * calculate_rewards_u128 3 7 ((100000 : Nat) : Int) ≤
          calculate_rewards_u128 3 7 ((2 * 100000 : Nat) : Int) ∧
        calculate_rewards_u128 3 7 ((2 * 100000 : Nat) : Int) ≤
          2 * calculate_rewards_u128 3 7 ((100000 : Nat) : Int) + 1)) :=
  ⟨by decide, by decide, by decide, by decide, by decide,
    reward_doubling_within_one 3 7 100000
      (by decide) (by decide) (by decide) (by decide) (by decide)⟩

/-- Claim C6, counterexample: exact doubling linearity fails.
`f(2·1, 500000s, rate 1) = 1` but `2 · f(1, 500000s, 1) = 2 · 0 = 0`, and
likewise `f(1, 2·500000s, 1) = 1 ≠ 0`. -/
theorem reward_doubling_not_exact_cex :
    calculate_rewards_u128 2 1 (500000 : Int) = 1 ∧
      calculate_rewards_u128 1 1 (500000 : Int) = 0 ∧
      calculate_rewards_u128 1 1 (1000000 : Int) = 1 ∧
      (1 : Nat) ≠ 2 * 0 := by
  exact ⟨by decide, by decide, by decide, by decide⟩

/-- Claim C3 (amended): in `DECIMAL_FIX_V3_COMPLETE.rs`, a successful
Harvest transfers exactly the computed reward and adds exactly that amount
to `total_harvested` — but in `lib_new_fix.rs` the transferred amount is
`reward / 10^9` (display normalization), so the claim as stated over all
cited Harvest implementations fails (see the counterexample). -/
theorem harvest_v3_pays_exactly_computed_reward
    (calcRewards : Nat → Int → Nat → Nat) (programId userKey authorityKey : Nat)
    (acct : StakingAccountV3) (ps : ProgramState) (now : Int)
    (bal : Nat) (elapsed : Int) (R : Nat)
    (hauth : authorityKey = (find_program_address authoritySeed programId).1)
    (hown : acct.owner = userKey)
    (helap : i64CheckedSub now acct.last_harvest_time = some elapsed)
    (hR : R = calcRewards acct.staked_amount elapsed ps.stake_rate_per_second)
    (hthr : ps.harvest_threshold ≤ R) (hbal : R ≤ bal)
    (hadd : acct.total_harvested + R < U64) :
    process_harvest_v3 calcRewards programId userKey true authorityKey acct ps now bal =
      .ok { account := { acct with last_harvest_time := now,
                                   total_harvested := acct.total_harvested + R },
            rewardTransfer := R } := by
  subst hauth hown hR
  have h1 : ¬ (calcRewards acct.staked_amount elapsed ps.stake_rate_per_second <
      ps.harvest_threshold) := not_lt.mpr hthr
  have h2 : ¬ (bal < calcRewards acct.staked_amount elapsed ps.stake_rate_per_second) :=
    not_lt.mpr hbal
  simp [process_harvest_v3, helap, h1, h2, checkedAdd64, hadd]

/-- Claim C3, witness: concrete successful Harvest in the V3 settlement. -/
theorem harvest_v3_pays_exactly_computed_reward_witness :
    (0 : Nat) = (find_program_address authoritySeed 0).1 ∧
      (⟨5, 100, 0, 7⟩ : StakingAccountV3).owner = 5 ∧
      i64CheckedSub 3 (⟨5, 100, 0, 7⟩ : StakingAccountV3).last_harvest_time = some 3 ∧
      (100 : Nat) = (fun (p : Nat) (_ : Int) (_ : Nat) => p) 100 3 0 ∧
      (⟨0, 0, 0, 0, 2, 0, 0⟩ : ProgramState).harvest_threshold ≤ 100 ∧
      (100 : Nat) ≤ 200 ∧ (7 : Nat) + 100 < U64 ∧
      process_harvest_v3 (fun p _ _ => p) 0 5 true 0 ⟨5, 100, 0, 7⟩ ⟨0, 0, 0, 0, 2, 0, 0⟩ 3 200 =
        .ok { account := ⟨5, 100, 3, 107⟩, rewardTransfer := 100 } := by
  refine ⟨by decide, rfl, by decide, rfl, by decide, by decide, by decide, ?_⟩
  have h := harvest_v3_pays_exactly_computed_reward (fun p _ _ => p) 0 5 0
    ⟨5, 100, 0, 7⟩ ⟨0, 0, 0, 0, 2, 0, 0⟩ 3 200 3 100
    (by decide) rfl (by decide) rfl (by decide) (by decide) (by decide)
  exact h

/-- Claim C3, counterexample: in `lib_new_fix.rs` `process_harvest`, with
1000 staked tokens (10^12 raw), rate 1000 and a 1000-second window, the
computed reward is 10^12 but the transferred amount is
`10^12 / 10^9 = 1000` — the display-normalized value, not the computed
reward (and this version records no `total_harvested` at all). -/
theorem harvest_v1_display_normalization_cex :
    process_harvest_v1 0 1 true 0 ⟨1, 1000000000000, 0, 0⟩ ⟨1, 2, 3, 1000, 0, 0, 0⟩ 1000 =
      .ok { account := ⟨1, 1000000000000, 1000, 0⟩, rewardTransfer := 1000 } ∧
      calculate_rewards_u128 1000000000000 1000 (i64SatSub 1000 0) = 1000000000000 ∧
      (1000 : Nat) ≠ 1000000000000 := by
  exact ⟨by decide, by decide, by decide⟩

/-- Claim C4 (amended): an Unstake whose computed reward exceeds the
program's reward-token balance still succeeds, transfers the full
principal, skips the reward transfer and reports the non-fatal
"reward not paid" condition — but `total_harvested` has already been
incremented by the unpaid reward before the transfer attempt (optimistic
accounting), so "leaves total_harvested unchanged" fails (see the
counterexample). -/
theorem unstake_v3_reward_skip_keeps_principal
    (calcRewards : Nat → Int → Nat → Nat) (programId userKey authorityKey : Nat)
    (acct : StakingAccountV3) (ps : ProgramState) (now : Int)
    (amount bal : Nat) (elapsed : Int) (R : Nat)
    (hauth : authorityKey = (find_program_address authoritySeed programId).1)
    (hown : acct.owner = userKey)
    (hamt : amount ≤ acct.staked_amount)
    (helap : i64CheckedSub now acct.last_harvest_time = some elapsed)
    (hR : R = calcRewards acct.staked_amount elapsed ps.stake_rate_per_second)
    (hpos : 0 < R) (hbal : bal < R)
    (hadd : acct.total_harvested + R < U64) :
    process_unstake_v3 calcRewards programId userKey true authorityKey acct ps now amount bal =
      .ok { account := { acct with last_harvest_time := now,
                                   staked_amount := acct.staked_amount - amount,
                                   total_harvested := acct.total_harvested + R },
            principalTransfer := amount, rewardTransfer := 0,
            rewardSkipped := true } := by
  subst hauth hown hR
  have h1 : ¬ (acct.staked_amount < amount) := not_lt.mpr hamt
  have h2 : ¬ (calcRewards acct.staked_amount elapsed ps.stake_rate_per_second ≤ bal) :=
    not_le.mpr hbal
  simp [process_unstake_v3, helap, h1, h2, hpos, checkedSub64, hamt, checkedAdd64, hadd]

/-- Claim C4, witness: concrete reward-skipped Unstake. -/
theorem unstake_v3_reward_skip_keeps_principal_witness :
    (0 : Nat) = (find_program_address authoritySeed 0).1 ∧
      (⟨5, 100, 0, 7⟩ : StakingAccountV3).owner = 5 ∧ (40 : Nat) ≤ 100 ∧
      i64CheckedSub 3 (⟨5, 100, 0, 7⟩ : StakingAccountV3).last_harvest_time = some 3 ∧
      (100 : Nat) = (fun (p : Nat) (_ : Int) (_ : Nat) => p) 100 3 0 ∧
      (0 : Nat) < 100 ∧ (0 : Nat) < 100 ∧ (7 : Nat) + 100 < U64 ∧
      process_unstake_v3 (fun p _ _ => p) 0 5 true 0 ⟨5, 100, 0, 7⟩ ⟨0, 0, 0, 0, 0, 0, 0⟩ 3 40 0 =
        .ok { account := ⟨5, 60, 3, 107⟩, principalTransfer := 40,
              rewardTransfer := 0, rewardSkipped := true } := by
  refine ⟨by decide, rfl, by decide, by decide, rfl, by decide, by decide, by decide, ?_⟩
  exact unstake_v3_reward_skip_keeps_principal (fun p _ _ => p) 0 5 0
    ⟨5, 100, 0, 7⟩ ⟨0, 0, 0, 0, 0, 0, 0⟩ 3 40 0 3 100
    (by decide) rfl (by decide) (by decide) rfl (by decide) (by decide) (by decide)

/-- Claim C4, counterexample: Unstake of 8 out of 20 staked with computed
reward 20 and an empty reward pool succeeds and skips the reward, but
`total_harvested` changes from 1 to 21 — not unchanged as claimed. -/
theorem unstake_v3_total_harvested_changed_cex :
    process_unstake_v3 (fun p _ _ => p) 0 9 true 0 ⟨9, 20, 0, 1⟩ ⟨0, 0, 0, 0, 0, 0, 0⟩ 2 8 0 =
      .ok { account := ⟨9, 12, 2, 21⟩, principalTransfer := 8,
            rewardTransfer := 0, rewardSkipped := true } ∧
      (21 : Nat) ≠ 1 := by
  exact ⟨by decide, by decide⟩

/-- Claim C5 (amended): a Harvest whose computed reward is below
`harvest_threshold` fails before any state mutation, but with the generic
`ProgramError::InsufficientFunds` (`lib_new_fix.rs` uses
`InvalidArgument`) — the same kind returned for custodial insufficient
balance — not a distinct `BelowThreshold` error kind (see the
counterexample). An error result leaves every account unchanged. -/
theorem harvest_v3_below_threshold_fails
    (calcRewards : Nat → Int → Nat → Nat) (programId userKey authorityKey : Nat)
    (acct : StakingAccountV3) (ps : ProgramState) (now : Int)
    (bal : Nat) (elapsed : Int) (R : Nat)
    (hauth : authorityKey = (find_program_address authoritySeed programId).1)
    (hown : acct.owner = userKey)
    (helap : i64CheckedSub now acct.last_harvest_time = some elapsed)
    (hR : R = calcRewards acct.staked_amount elapsed ps.stake_rate_per_second)
    (hlt : R < ps.harvest_threshold) :
    process_harvest_v3 calcRewards programId userKey true authorityKey acct ps now bal =
      .error .insufficientFunds := by
  subst hauth hown hR
  simp [process_harvest_v3, helap, hlt]

/-- Claim C5, witness: concrete below-threshold Harvest. -/
theorem harvest_v3_below_threshold_fails_witness :
    (0 : Nat) = (find_program_address authoritySeed 0).1 ∧
      (⟨5, 4, 0, 0⟩ : StakingAccountV3).owner = 5 ∧
      i64CheckedSub 3 (⟨5, 4, 0, 0⟩ : StakingAccountV3).last_harvest_time = some 3 ∧
      (4 : Nat) = (fun (p : Nat) (_ : Int) (_ : Nat) => p) 4 3 0 ∧
      (4 : Nat) < (⟨0, 0, 0, 0, 10, 0, 0⟩ : ProgramState).harvest_threshold ∧
      process_harvest_v3 (fun p _ _ => p) 0 5 true 0 ⟨5, 4, 0, 0⟩ ⟨0, 0, 0, 0, 10, 0, 0⟩ 3 500 =
        .error .insufficientFunds := by
  refine ⟨by decide, rfl, by decide, rfl, by decide, ?_⟩
  exact harvest_v3_below_threshold_fails (fun p _ _ => p) 0 5 0
    ⟨5, 4, 0, 0⟩ ⟨0, 0, 0, 0, 10, 0, 0⟩ 3 500 3 4
    (by decide) rfl (by decide) rfl (by decide)

/-- Claim C5, counterexample: the error kind is not distinct. A Harvest
with reward 5 below threshold 10 and a Harvest with reward 5 above
threshold 1 but an empty reward pool (the custodial insufficient-balance
failure, the spec's separate `InsufficientBalance` kind) both return the
identical `ProgramError::InsufficientFunds`, so a caller cannot
distinguish "not yet eligible" from "insufficient funds". -/
theorem harvest_below_threshold_error_kind_cex :
    process_harvest_v3 (fun p _ _ => p) 0 5 true 0 ⟨5, 5, 0, 0⟩ ⟨0, 0, 0, 0, 10, 0, 0⟩ 3 500 =
      .error .insufficientFunds ∧
      process_harvest_v3 (fun p _ _ => p) 0 5 true 0 ⟨5, 5, 0, 0⟩ ⟨0, 0, 0, 0, 1, 0, 0⟩ 3 0 =
        .error .insufficientFunds := by
  exact ⟨by decide, by decide⟩

/-- Claim C7 (amended): `process_stake` in `lib_new_fix.rs` verifies only
that the caller signed — it never compares the caller with the recorded
`owner` of an existing staking account. A stake by a non-owner signer
succeeds, credits the recorded owner's `staked_amount`, and transfers the
full amount; the claimed owner check does not exist (see the
counterexample). -/
theorem stake_no_owner_check (userKey amount : Nat)
    (acct : StakingAccountV1) (ps : ProgramState) (now : Int)
    (hthr : ps.stake_threshold ≤ amount) (hne : userKey ≠ acct.owner) :
    process_stake userKey true amount ps (some acct) now =
      .ok { account := { acct with
              staked_amount := saturatingAdd64 acct.staked_amount amount,
              last_stake_time := now },
            stakeTransfer := amount } := by
  have h1 : ¬ (amount < ps.stake_threshold) := not_lt.mpr hthr
  simp [process_stake, h1]

/-- Claim C7, witness: caller 2 stakes into the account owned by 1. -/
theorem stake_no_owner_check_witness :
    (⟨0, 0, 0, 0, 0, 4, 0⟩ : ProgramState).stake_threshold ≤ 5 ∧ (2 : Nat) ≠ 1 ∧
      process_stake 2 true 5 ⟨0, 0, 0, 0, 0, 4, 0⟩ (some ⟨1, 10, 0, 0⟩) 3 =
        .ok { account := ⟨1, saturatingAdd64 10 5, 0, 3⟩, stakeTransfer := 5 } := by
  refine ⟨by decide, by decide, ?_⟩
  exact stake_no_owner_check 2 5 ⟨1, 10, 0, 0⟩ ⟨0, 0, 0, 0, 0, 4, 0⟩ 3 (by decide) (by decide)

/-- Claim C7, counterexample: the claim demands that a Stake by a
non-owner fail with no mutation; instead the call by signer 2 against the
account owned by 1 returns success and mutates the ledger record. -/
theorem stake_non_owner_succeeds_cex :
    process_stake 2 true 6 ⟨0, 0, 0, 0, 0, 0, 0⟩ (some ⟨1, 30, 0, 0⟩) 9 =
      .ok { account := ⟨1, 36, 0, 9⟩, stakeTransfer := 6 } ∧
      (2 : Nat) ≠ 1 ∧ (36 : Nat) ≠ 30 := by
  exact ⟨by decide, by decide, by decide⟩

/-- Claim C8 (amended): the multihub `process_initialize`
(`src/program/src/lib.rs`) fails `AlreadyInitialized` when the state
account holds data that deserializes with `is_initialized` set, leaving
the existing configuration unchanged — but the staking
`process_initialize` (`lib_new_fix.rs`) performs no such check and
unconditionally overwrites an existing configuration (see the
counterexample). -/
theorem init_multihub_already_init_guard
    (programId adminKey stateKey : Nat) (parsed : Option MultihubState)
    (s : MultihubState)
    (yotMint yosMint solYotPool authorityBump now : Nat)
    (hstate : stateKey = (find_program_address programStateSeed programId).1)
    (hparsed : parsed = some s) (hinit : s.is_initialized = true) :
    process_init_multihub programId adminKey true stateKey false parsed
        yotMint yosMint solYotPool authorityBump now =
      .error .alreadyInitialized := by
  subst hstate hparsed
  simp [process_init_multihub, hinit]

/-- Claim C8, witness: a second Initialize against an initialized state. -/
theorem init_multihub_already_init_guard_witness :
    (Nat.pair programStateSeed 0 : Nat) = (find_program_address programStateSeed 0).1 ∧
      (some (⟨true, 1, 2, 3, 4, 5, 6, 20, 1, 3, 0⟩ : MultihubState) =
        some (⟨true, 1, 2, 3, 4, 5, 6, 20, 1, 3, 0⟩ : MultihubState)) ∧
      (⟨true, 1, 2, 3, 4, 5, 6, 20, 1, 3, 0⟩ : MultihubState).is_initialized = true ∧
      process_init_multihub 0 9 true (Nat.pair programStateSeed 0)
          false (some ⟨true, 1, 2, 3, 4, 5, 6, 20, 1, 3, 0⟩) 1 2 3 7 11 =
        .error .alreadyInitialized := by
  refine ⟨by decide, rfl, rfl, ?_⟩
  exact init_multihub_already_init_guard 0 9 (Nat.pair programStateSeed 0)
    (some ⟨true, 1, 2, 3, 4, 5, 6, 20, 1, 3, 0⟩) ⟨true, 1, 2, 3, 4, 5, 6, 20, 1, 3, 0⟩
    1 2 3 7 11 (by decide) rfl rfl

/-- Claim C8, counterexample: the staking `process_initialize` of
`lib_new_fix.rs`, invoked while a configuration with admin 7 already
exists, does not fail `AlreadyInitialized`: it succeeds and overwrites the
configuration, installing the caller 9 as admin. -/
theorem init_staking_overwrites_cex :
    process_init_staking 9 true (some ⟨7, 1, 2, 100, 5, 6, 4⟩) 1 2 100 5 6 4 =
      .ok ⟨9, 1, 2, 100, 5, 6, 4⟩ ∧
      (9 : Nat) ≠ 7 := by
  exact ⟨by decide, by decide⟩

/-- Claim C9: both V3 settlement handlers re-derive the authority address
from the fixed seed and the program identity on every call and fail with
the code's address-mismatch error (`ProgramError::InvalidAccountData`,
the spec's `InvalidAddressDerivation`) when the supplied authority
account differs, before any state mutation (an error aborts the
instruction with no persisted change); and the derivation is a pure
function, so identical seed and program identity always give the
identical (address, bump) pair. -/
theorem settlement_rejects_wrong_authority
    (calcRewards : Nat → Int → Nat → Nat) (programId userKey authorityKey : Nat)
    (acct : StakingAccountV3) (ps : ProgramState) (now : Int) (amount bal : Nat)
    (hne : authorityKey ≠ (find_program_address authoritySeed programId).1) :
    process_harvest_v3 calcRewards programId userKey true authorityKey acct ps now bal =
        .error .invalidAccountData ∧
      process_unstake_v3 calcRewards programId userKey true authorityKey acct ps now amount bal =
        .error .invalidAccountData ∧
      find_program_address authoritySeed programId =
        find_program_address authoritySeed programId := by
  refine ⟨?_, ?_, rfl⟩
  · simp [process_harvest_v3, Ne.symm hne]
  · simp [process_unstake_v3, Ne.symm hne]

/-- Claim C9, witness: supplied authority 1 differs from the derived
address for program 0, and both handlers reject. -/
theorem settlement_rejects_wrong_authority_witness :
    (1 : Nat) ≠ (find_program_address authoritySeed 0).1 ∧
      (process_harvest_v3 (fun p _ _ => p) 0 5 true 1 ⟨5, 4, 0, 0⟩ ⟨0, 0, 0, 0, 0, 0, 0⟩ 3 0 =
          .error .invalidAccountData ∧
        process_unstake_v3 (fun p _ _ => p) 0 5 true 1 ⟨5, 4, 0, 0⟩ ⟨0, 0, 0, 0, 0, 0, 0⟩ 3 2 0 =
          .error .invalidAccountData ∧
        find_program_address authoritySeed 0 = find_program_address authoritySeed 0) := by
  refine ⟨by decide, ?_⟩
  exact settlement_rejects_wrong_authority (fun p _ _ => p) 0 5 1
    ⟨5, 4, 0, 0⟩ ⟨0, 0, 0, 0, 0, 0, 0⟩ 3 2 0 (by decide)

/-- Claim C10: `process_stake` uses `saturating_add`; when
`staked_amount + amount` exceeds `u64::MAX` the stake does not fail with
an overflow error — it succeeds, records `staked_amount = u64::MAX`, and
still transfers the full amount into the pool. -/
theorem stake_saturates_at_u64_max (userKey amount : Nat)
    (acct : StakingAccountV1) (ps : ProgramState) (now : Int)
    (hthr : ps.stake_threshold ≤ amount)
    (hof : U64 ≤ acct.staked_amount + amount) :
    process_stake userKey true amount ps (some acct) now =
      .ok { account := { acct with staked_amount := U64 - 1, last_stake_time := now },
            stakeTransfer := amount } := by
  have h1 : ¬ (amount < ps.stake_threshold) := not_lt.mpr hthr
  have h2 : saturatingAdd64 acct.staked_amount amount = U64 - 1 :=
    min_eq_right (le_trans (Nat.sub_le U64 1) hof)
  simp [process_stake, h1, h2]

/-- Claim C10, witness: staking 1 on top of `u64::MAX` saturates. -/
theorem stake_saturates_at_u64_max_witness :
    (⟨0, 0, 0, 0, 0, 0, 0⟩ : ProgramState).stake_threshold ≤ 1 ∧
      U64 ≤ (2 ^ 64 - 1) + 1 ∧
      process_stake 4 true 1 ⟨0, 0, 0, 0, 0, 0, 0⟩ (some ⟨4, 2 ^ 64 - 1, 0, 0⟩) 6 =
        .ok { account := ⟨4, U64 - 1, 0, 6⟩, stakeTransfer := 1 } := by
  refine ⟨by decide, by decide, ?_⟩
  exact stake_saturates_at_u64_max 4 1 ⟨4, 2 ^ 64 - 1, 0, 0⟩ ⟨0, 0, 0, 0, 0, 0, 0⟩ 6
    (by decide) (by decide)

end Tswap
